import Mathlib

/-!
Verification of the objectives engine of skpar (src/skopt/objectives.py)
against its natural-language specification.

The Python module is shallowly embedded: numpy float arrays become lists of
rationals (the code performs only exact arithmetic relevant to the claims:
comparisons, assignment, subtraction, dot products, rescaling), dictionaries
become explicit option records or association lists, and Python exceptions
become an `Except PyErr` monad.  Exception classes matter, because the code
catches (TypeError, KeyError) in several places while letting other
exceptions propagate, so `PyErr` keeps the Python exception class.

The taxonomy of the specification maps onto `PyErr` as follows:
`InvalidRangeError` and `ShapeMismatchError` are `assertionError`
(the code raises them via assert statements).
-/

deriving instance DecidableEq for Except

inductive PyErr where
  | typeError
  | keyError
  | attributeError
  | assertionError
  | indexError
  | valueError
deriving DecidableEq, Repr

/-- Python indexing into a sequence of length `n`: negative indexes count
from the end; out-of-bounds raises IndexError (modelled as `none`). -/
def pyIdx (n : Nat) (i : Int) : Option Nat :=
  let j := if i < 0 then i + n else i
  if 0 ≤ j ∧ j < n then some j.toNat else none

/-- Python `l[i]` for a list. -/
def pyGetL (l : List α) (i : Int) : Except PyErr α :=
  match pyIdx l.length i with
  | some j =>
    match l.get? j with
    | some a => .ok a
    | none => .error .indexError
  | none => .error .indexError

/-- Python `l[i] = w` for a list of rationals. -/
def pySet (l : List ℚ) (i : Int) (w : ℚ) : Except PyErr (List ℚ) :=
  match pyIdx l.length i with
  | some j => .ok (l.set j w)
  | none => .error .indexError

/-- f2prange: convert a Fortran (1-based, inclusive) range to a Python
(0-based, half-open) one.  `assert lo >= 1 and hi >= lo` raises
AssertionError on invalid input; the result is `(lo-1, hi)`. -/
def f2prange (lo hi : Int) : Except PyErr (Int × Int) :=
  if 1 ≤ lo ∧ lo ≤ hi then .ok (lo - 1, hi) else .error .assertionError

/-- One element of the argument of get_ranges: a bare integer index or a
2-sequence `[lo, hi]`. -/
inductive RngSpecItem where
  | idx (i : Int)
  | pair (lo hi : Int)
deriving DecidableEq, Repr

/-- The dynamic argument of get_ranges: `None`, a bare scalar, or a list. -/
inductive RangeData where
  | scalar (i : Int)
  | items (l : List RngSpecItem)
deriving DecidableEq, Repr

/-- get_ranges: normalise a range specification to a list of Python ranges.
`data = None` is not iterable, so the code falls into the except-branch and
calls `f2prange((None, None))`, where `None >= 1` raises TypeError. -/
def get_ranges (data : Option RangeData) : Except PyErr (List (Int × Int)) :=
  match data with
  | none => .error .typeError
  | some (.scalar i) => do
    let r ← f2prange i i
    .ok [r]
  | some (.items l) =>
    l.mapM (fun it =>
      match it with
      | .idx i => f2prange i i
      | .pair lo hi => f2prange lo hi)

/-- get_subset_ind: flatten a list-of-ranges spec into an index array. -/
def get_subset_ind (rangespec : Option RangeData) : Except PyErr (List Int) := do
  let rngs ← get_ranges rangespec
  .ok (rngs.foldl (fun acc r => acc ++ (List.range (r.2 - r.1).toNat).map (fun k => r.1 + (k : Int))) [])

/-- Modelled from the spec: `normalise` lives in skopt.utils, which is not
among the given sources.  The spec fixes only that it rescales a weight
array (sum = 1 or max = 1 rule); we model the sum = 1 rule, dividing every
entry by the total (division by a zero total yields zero in ℚ). -/
def normalise (ww : List ℚ) : List ℚ :=
  ww.map (fun w => w / ww.foldl (fun a b => a + b) 0)

/-- Modelled from the spec: 2-D variant of `normalise`, dividing by the
total over all entries. -/
def normalise2 (ww : List (List ℚ)) : List (List ℚ) :=
  let s := (ww.map (fun r => r.foldl (fun a b => a + b) 0)).foldl (fun a b => a + b) 0
  ww.map (fun r => r.map (fun w => w / s))

/-- Pointwise update of a list by a function of the (running) index. -/
def updFrom (f : Nat → ℚ → ℚ) : Nat → List ℚ → List ℚ
  | _, [] => []
  | s, v :: vs => f s v :: updFrom f (s + 1) vs

/-- numpy `ww[ilo:ihi][ww[ilo:ihi] < w] = w`: on the (clamped) slice, set
entries smaller than `w` to `w`.  `ilo, ihi` come from f2prange and are
therefore non-negative. -/
def sliceMaxUpdate (ww : List ℚ) (ilo ihi : Int) (w : ℚ) : List ℚ :=
  updFrom (fun j v => if ilo ≤ (j : Int) ∧ (j : Int) < ihi ∧ v < w then w else v) 0 ww

/-- numpy `ww[(lo <= refdata) & (refdata <= hi) & (ww < w)] = w`. -/
def valueMaxUpdate (ww refd : List ℚ) (lo hi : ℚ) (w : ℚ) : List ℚ :=
  List.zipWith (fun v r => if lo ≤ r ∧ r ≤ hi ∧ v < w then w else v) ww refd

/-- Locator of one override entry inside a structured weight spec: an
integer, an integer 2-sequence, or a float 2-sequence. -/
inductive Locator where
  | int (i : Int)
  | pairI (a b : Int)
  | pairF (a b : ℚ)
deriving DecidableEq, Repr

/-- A structured weight spec: the optional `dflt` entry plus the named
override groups (a Python dict; group values are lists of
`[locator, weight]` pairs). -/
structure StructSpec where
  dflt : Option ℚ
  groups : List (String × List (Locator × ℚ))
deriving DecidableEq, Repr

/-- The dynamic first argument of parse_weights: a Python list of floats,
a numpy array, or a structured spec dict. -/
inductive WeightSpec where
  | pylist (ws : List ℚ)
  | nparray (ws : List ℚ)
  | struct (s : StructSpec)
deriving DecidableEq, Repr

/-- One entry of an explicit-index (ikeys) group, on a 1-D weight array:
`ww[i0+i-1] = w` for an integer locator; a tuple locator makes the integer
addition raise TypeError, after which `ww[(i0+i[0]-1, i[1]-1)] = w` fails
with IndexError on a 1-D array (too many indices). -/
def applyIkeyEntry (i0 : Int) (ww : List ℚ) (ent : Locator × ℚ) : Except PyErr (List ℚ) :=
  match ent with
  | (.int i, w) => pySet ww (i0 + i - 1) w
  | (.pairI _ _, _) => .error .indexError
  | (.pairF _ _, _) => .error .indexError

/-- One entry of an integer-range (rikeys) group on a 1-D weight array:
`rngs = get_ranges([rngs]); for ilo, ihi in rngs: ww[ilo:ihi][...] = w`.
A float pair passes the f2prange assertion but then raises TypeError when
used as slice bounds. -/
def applyRikeyEntry (ww : List ℚ) (ent : Locator × ℚ) : Except PyErr (List ℚ) :=
  match ent with
  | (.int i, w) => do
    let rs ← get_ranges (some (.items [.idx i]))
    .ok (rs.foldl (fun acc r => sliceMaxUpdate acc r.1 r.2 w) ww)
  | (.pairI lo hi, w) => do
    let rs ← get_ranges (some (.items [.pair lo hi]))
    .ok (rs.foldl (fun acc r => sliceMaxUpdate acc r.1 r.2 w) ww)
  | (.pairF lo hi, _) =>
    if 1 ≤ lo ∧ lo ≤ hi then .error .typeError else .error .assertionError

/-- One entry of a value-range (rfkeys) group: mask by reference values;
`rng[0]` on a bare integer locator raises TypeError. -/
def applyRfkeyEntry (refd : List ℚ) (ww : List ℚ) (ent : Locator × ℚ) : Except PyErr (List ℚ) :=
  match ent with
  | (.int _, _) => .error .typeError
  | (.pairI lo hi, w) => .ok (valueMaxUpdate ww refd (lo : ℚ) (hi : ℚ) w)
  | (.pairF lo hi, w) => .ok (valueMaxUpdate ww refd lo hi w)

/-- parse_weights, specialised to 1-D weight arrays (the shape used by the
call sites the claims concern).  Mirrors src/skopt/objectives.py lines
61-168: an explicit Python list of the target length, or a numpy array, is
passed through (normalised); otherwise the structured spec is parsed:
default value, then ikeys, then rikeys, then rfkeys groups.  A Python list
of the wrong length falls into the structured branch, where `spec.get`
on a list raises AttributeError.  In the rfkeys loop the code runs
`assert refdata.shape == ww.shape` for every key name before looking the
group up, so `refdata=None` raises AttributeError (None has no attribute
shape) whenever rfkeys is non-empty. -/
def parse_weights (spec : WeightSpec) (refdata : Option (List ℚ)) (nn : Nat)
    (shape : Option Nat) (i0 : Int) (normalised : Bool)
    (ikeys rikeys rfkeys : List String) : Except PyErr (List ℚ) :=
  match spec with
  | .pylist ws =>
    if ws.length = nn then
      .ok (if normalised then normalise ws else ws)
    else
      .error .attributeError
  | .nparray ws => .ok (if normalised then normalise ws else ws)
  | .struct s => do
    let dflt := (s.dflt).getD 1
    let shp :=
      match shape with
      | some m => m
      | none =>
        match refdata with
        | some r => r.length
        | none => nn
    let ww0 := List.replicate shp dflt
    let ww1 ← ikeys.foldlM (fun ww k =>
      ((s.groups.lookup k).getD []).foldlM (applyIkeyEntry i0) ww) ww0
    let ww2 ← rikeys.foldlM (fun ww k =>
      ((s.groups.lookup k).getD []).foldlM applyRikeyEntry ww) ww1
    let ww3 ← rfkeys.foldlM (fun ww k =>
      match refdata with
      | none => .error .attributeError
      | some r =>
        if r.length = ww.length then
          ((s.groups.lookup k).getD []).foldlM (applyRfkeyEntry r) ww
        else .error .assertionError) ww2
    .ok (if normalised then normalise ww3 else ww3)

/-- The dynamic first argument of parse_weights_keyval: a Python list of
floats or a dict of key-weight items (in insertion order, keys unique;
`dflt` is itself an item of the dict and is also visited by the loop). -/
inductive KVSpec where
  | pylist (ws : List ℚ)
  | mapping (items : List (String × ℚ))
deriving DecidableEq, Repr

/-- parse_weights_keyval (src lines 18-59): weights for key-value data.
An explicit list must have the length of the data (assert); otherwise the
weights start at `spec.get('dflt', 0)` and every item `(key, val)` of the
spec dict sets the weight of each data row whose key equals `key`
(unmatched keys are silently ignored). -/
def parse_weights_keyval (spec : KVSpec) (data : List (String × ℚ)) (normalised : Bool) :
    Except PyErr (List ℚ) :=
  match spec with
  | .pylist ws =>
    if ws.length = data.length then
      .ok (if normalised then normalise ws else ws)
    else .error .assertionError
  | .mapping items =>
    let dflt := (items.lookup "dflt").getD 0
    let ww0 := data.map (fun _ => dflt)
    let ww := items.foldl (fun ww kv =>
      List.zipWith (fun w d => if d.1 = kv.1 then kv.2 else w) ww data) ww0
    .ok (if normalised then normalise ww else ww)

/-- A numpy array as the objectives code distinguishes them: a 1-D float
array, a 2-D float array, or a 1-D structured key-value array (dtype
`[('keys','S15'), ('values','float')]`). -/
inductive NpData where
  | one (l : List ℚ)
  | two (m : List (List ℚ))
  | kv (l : List (String × ℚ))
deriving DecidableEq, Repr

def npShape : NpData → List Nat
  | .one l => [l.length]
  | .two m => [m.length, (m.headD []).length]
  | .kv l => [l.length]

def npNdim : NpData → Nat
  | .one _ => 1
  | .two _ => 2
  | .kv _ => 1

inductive NpDtype where
  | float
  | keyval
deriving DecidableEq, Repr

def npDtype : NpData → NpDtype
  | .one _ => .float
  | .two _ => .float
  | .kv _ => .keyval

/-- `np.ones(ref.shape)`, as used by `Objective.__init__`. -/
def onesLike : NpData → NpData
  | .one l => .one (l.map (fun _ => 1))
  | .two m => .two (m.map (fun r => r.map (fun _ => 1)))
  | .kv l => .one (l.map (fun _ => 1))

/-- `np.ones(m.shape)` for a plain 2-D array. -/
def onesLike2 (m : List (List ℚ)) : List (List ℚ) :=
  m.map (fun r => r.map (fun _ => 1))

/-- get_type (src lines 198-215): infer the objective type from the model
count and the shape/dtype of the reference data, starting from the given
default.  The three overrides are applied as successive if-statements. -/
def get_type (n_models : Nat) (ref : NpData) (dflt_type : String) : String :=
  let t0 := dflt_type
  let t1 := if 1 < n_models ∧ npShape ref = [1] then "weighted_sum" else t0
  let t2 := if n_models = 1 ∧ npNdim ref = 1 ∧ npDtype ref = .keyval then "keyval_pairs" else t1
  let t3 := if n_models = 1 ∧ npNdim ref = 2 ∧ npDtype ref = .float then "bands" else t2
  t3

/-- get_objective, line 695: `spec.get('type', get_type(nmod, ref_data))` —
an explicit type in the spec wins over the inferred one. -/
def resolve_objtype (spec_type : Option String) (nmod : Nat) (ref : NpData) : String :=
  match spec_type with
  | some t => t
  | none => get_type nmod ref "values"

/-- Python `str.lower()`, character by character. -/
def pyLower (s : String) : String :=
  String.mk (s.data.map Char.toLower)

/-- The cost/error function names an objective spec may carry in `options`. -/
structure FuncOptions where
  costf : Option String
  errf : Option String
deriving DecidableEq, Repr

/-- Python dict lookup by key, raising KeyError when absent.  The external
cost and error registries are modelled by their key sets; the looked-up
function is identified by its key. -/
def dict_lookup (keys : List String) (name : String) : Except PyErr String :=
  if name ∈ keys then .ok name else .error .keyError

/-- Objective.__init__, lines 283-296: the cost and error functions start
as the registry entries for "rms" and "abs"; if `options` is present, each
of `options['costf']` and `options['errf']` is looked up, lowercased, in
its registry, and a KeyError (key absent from options, or name not in the
registry) is silently ignored, keeping the default. -/
def objective_init_funcs (costfKeys errfKeys : List String) (options : Option FuncOptions) :
    Except PyErr (String × String) := do
  let cf0 ← dict_lookup costfKeys "rms"
  let ef0 ← dict_lookup errfKeys "abs"
  match options with
  | none => .ok (cf0, ef0)
  | some o =>
    let cf :=
      match o.costf with
      | none => cf0
      | some name =>
        match dict_lookup costfKeys (pyLower name) with
        | .ok n => n
        | .error _ => cf0
    let ef :=
      match o.errf with
      | none => ef0
      | some name =>
        match dict_lookup errfKeys (pyLower name) with
        | .ok n => n
        | .error _ => ef0
    .ok (cf, ef)

/-- Objective.get (lines 305-317): assert that model data, reference data
and sub-weights all share one shape, then return the triple. -/
def objective_get_base (model_data ref_data subweights : List ℚ) :
    Except PyErr (List ℚ × List ℚ × List ℚ) :=
  if model_data.length = ref_data.length then
    if model_data.length = subweights.length then
      .ok (model_data, ref_data, subweights)
    else .error .assertionError
  else .error .assertionError

/-- `np.dot` of two 1-D arrays of equal length. -/
def dotQ (a b : List ℚ) : ℚ :=
  (List.zipWith (fun x y => x * y) a b).foldl (fun x y => x + y) 0

/-- ObjWeightedSum.get (lines 416-422): the summands fetched by the query
must be as many as the model weights (assert), the model data is
`np.atleast_1d(np.dot(summands, model_weights))`, and the base get()
performs the shape checks against reference data and sub-weights. -/
def objWeightedSum_get (summands model_weights ref_data subweights : List ℚ) :
    Except PyErr (List ℚ × List ℚ × List ℚ) :=
  if summands.length = model_weights.length then
    objective_get_base [dotQ summands model_weights] ref_data subweights
  else .error .assertionError

/-- The `options` block of an ObjValues spec, as far as its constructor
reads it: the optional `subweights` and `normalise` entries. -/
structure ValOptions where
  subweights : Option WeightSpec
  normOpt : Option Bool
deriving DecidableEq, Repr

/-- The attributes of an ObjValues instance that its constructor settles.
`subweight` (no final s) is the attribute created by the misspelled
assignment on line 370; it is distinct from `subweights`. -/
structure ValState where
  ref_data : NpData
  subweights : NpData
  subweight : Option NpData
  normalised : Option Bool
deriving DecidableEq, Repr

/-- ObjValues.__init__ (lines 355-370).  The base constructor has already
set `subweights = np.ones(ref_data.shape)` for the incoming reference
data.  Then: a (1, nmod)-shaped 2-D reference is reshaped to (nmod,);
if `options` carries a `subweights` spec it is parsed by parse_weights
with nn=nmod, ikeys=["indexes"], rikeys=["ranges"], rfkeys=["values"]
(and no refdata), and its shape is asserted against the reference shape;
otherwise line 370 assigns uniform weights to the misspelled attribute
`subweight`, leaving `subweights` at its base-constructor value. -/
def objValues_init (model_names : List String) (ref0 : NpData) (options : Option ValOptions) :
    Except PyErr ValState :=
  let nmod := model_names.length
  let sw0 := onesLike ref0
  let ref1 :=
    match ref0 with
    | .two m => if npShape (.two m) = [1, nmod] then .one (m.foldr (fun a b => a ++ b) []) else .two m
    | x => x
  let shape := npShape ref1
  match options with
  | some o =>
    match o.subweights with
    | some swspec => do
      let normalised := o.normOpt.getD true
      let sw ← parse_weights swspec none nmod none 0 normalised ["indexes"] ["ranges"] ["values"]
      if npShape (.one sw) = shape then
        .ok ⟨ref1, .one sw, none, some normalised⟩
      else .error .assertionError
    | none => .ok ⟨ref1, sw0, some (onesLike ref1), none⟩
  | none => .ok ⟨ref1, sw0, some (onesLike ref1), none⟩

/-- The `options` block of an ObjKeyValuePairs spec. -/
structure KVOptions where
  subweights : Option KVSpec
  normOpt : Option Bool
deriving DecidableEq, Repr

/-- The attributes ObjKeyValuePairs.__init__ replaces: the retained keys
(decoded to plain strings), their float values, and their weights. -/
structure KVState where
  query_key : List String
  ref_data : List ℚ
  subweights : List ℚ
deriving DecidableEq, Repr

/-- ObjKeyValuePairs.__init__ (lines 385-404).  With `options = None`,
`self.options.get('normalise', True)` raises AttributeError (None has no
attribute get), which nothing catches; with no `subweights` entry,
`self.options['subweights']` raises KeyError, which nothing catches.
Otherwise the flat parser produces the weights and every zero-weight row
is dropped from keys, values and weights alike. -/
def objKeyValuePairs_init (ref_data : List (String × ℚ)) (options : Option KVOptions) :
    Except PyErr KVState :=
  match options with
  | none => .error .attributeError
  | some opts =>
    let normalised := opts.normOpt.getD true
    match opts.subweights with
    | none => .error .keyError
    | some swspec => do
      let ww ← parse_weights_keyval swspec ref_data normalised
      let keep := (List.zip ref_data ww).filter (fun p => decide (p.2 ≠ 0))
      let st : KVState :=
        ⟨keep.map (fun p => p.1.1), keep.map (fun p => p.1.2), keep.map (fun p => p.2)⟩
      if st.subweights.length = st.ref_data.length ∧ st.query_key.length = st.ref_data.length then
        .ok st
      else .error .assertionError

/-- An alignment locator for get_refval: a (band, k-point) integer pair, or
a (band, reduction-name) pair with name in the `ff` registry
`{min, max}`. -/
inductive AlignPt where
  | ik (band kpt : Int)
  | ifn (band : Int) (fname : String)
deriving DecidableEq, Repr

/-- numpy min over a 1-D array; ValueError on an empty one. -/
def npMinRow (row : List ℚ) : Except PyErr ℚ :=
  match row with
  | [] => .error .valueError
  | h :: t => .ok (t.foldl (fun a b => if b < a then b else a) h)

/-- numpy max over a 1-D array; ValueError on an empty one. -/
def npMaxRow (row : List ℚ) : Except PyErr ℚ :=
  match row with
  | [] => .error .valueError
  | h :: t => .ok (t.foldl (fun a b => if a < b then b else a) h)

/-- get_refval (lines 434-453): select an alignment value from a 2-D
array.  `refpt = None` raises TypeError at `refpt[0]`.  With an integer
second component the value is `bands[iband, ik]`; with a string it is
`ff[name](bands[iband])`, KeyError when the name is not `min`/`max`. -/
def get_refval (bands : List (List ℚ)) (refpt : Option AlignPt) : Except PyErr ℚ :=
  match refpt with
  | none => .error .typeError
  | some (.ik b k) => do
    let row ← pyGetL bands (b - 1)
    pyGetL row (k - 1)
  | some (.ifn b fname) => do
    let row ← pyGetL bands (b - 1)
    match fname with
    | "min" => npMinRow row
    | "max" => npMaxRow row
    | _ => .error .keyError

/-- `except (TypeError, KeyError): pass` around a computation whose
no-exception result replaces the given current value. -/
def catchTK (x : Except PyErr α) (dflt : α) : Except PyErr α :=
  match x with
  | .ok a => .ok a
  | .error .typeError => .ok dflt
  | .error .keyError => .ok dflt
  | .error e => .error e

/-- The `options` block of an ObjBands spec. -/
structure BandsOptions where
  use_ref : Option RangeData
  align_ref : Option AlignPt
  use_model : Option RangeData
  align_model : Option AlignPt
  subweights : Option WeightSpec
  normOpt : Option Bool
deriving DecidableEq, Repr

/-- An ObjBands options dict with every key absent. -/
def emptyBandsOptions : BandsOptions :=
  ⟨none, none, none, none, none, none⟩

/-- `self.options.get(key)`: AttributeError when `self.options` is None
(None has no attribute get), else the entry or None. -/
def optGet (options : Option BandsOptions) (f : BandsOptions → Option α) :
    Except PyErr (Option α) :=
  match options with
  | none => .error .attributeError
  | some o => .ok (f o)

/-- numpy fancy row indexing `m[subset]`. -/
def pyRows (m : List (List ℚ)) (idx : List Int) : Except PyErr (List (List ℚ)) :=
  idx.mapM (pyGetL m)

/-- The model spec of an objective: a bare string or a list of names. -/
inductive ModelNames where
  | single (s : String)
  | many (l : List String)
deriving DecidableEq, Repr

/-- Row-broadcast assignment `ww[i] = w` on a 2-D array. -/
def pySetRow (ww : List (List ℚ)) (i : Int) (w : ℚ) : Except PyErr (List (List ℚ)) :=
  match pyIdx ww.length i with
  | some j =>
    match ww.get? j with
    | some row => .ok (ww.set j (row.map (fun _ => w)))
    | none => .error .indexError
  | none => .error .indexError

/-- Element assignment `ww[(a, b)] = w` on a 2-D array. -/
def pySet2 (ww : List (List ℚ)) (a b : Int) (w : ℚ) : Except PyErr (List (List ℚ)) :=
  match pyIdx ww.length a with
  | some j =>
    match ww.get? j with
    | some row =>
      match pyIdx row.length b with
      | some k => .ok (ww.set j (row.set k w))
      | none => .error .indexError
    | none => .error .indexError
  | none => .error .indexError

/-- ikeys entry on a 2-D weight array: an integer locator assigns a whole
row (numpy broadcast); a tuple locator assigns one element at
`(i0+a-1, b-1)` (only the first axis is shifted by i0); float pairs fail
as indices. -/
def applyIkeyEntry2 (i0 : Int) (ww : List (List ℚ)) (ent : Locator × ℚ) :
    Except PyErr (List (List ℚ)) :=
  match ent with
  | (.int i, w) => pySetRow ww (i0 + i - 1) w
  | (.pairI a b, w) => pySet2 ww (i0 + a - 1) (b - 1) w
  | (.pairF _ _, _) => .error .indexError

/-- Row-slice max-update `ww[ilo:ihi][ww[ilo:ihi] < w] = w` on a 2-D
array: elementwise on the selected rows. -/
def sliceMaxUpdate2 (ww : List (List ℚ)) (ilo ihi : Int) (w : ℚ) : List (List ℚ) :=
  (List.zip (List.range ww.length) ww).map (fun p =>
    if ilo ≤ (p.1 : Int) ∧ (p.1 : Int) < ihi then
      p.2.map (fun v => if v < w then w else v)
    else p.2)

/-- rikeys entry on a 2-D weight array. -/
def applyRikeyEntry2 (ww : List (List ℚ)) (ent : Locator × ℚ) :
    Except PyErr (List (List ℚ)) :=
  match ent with
  | (.int i, w) => do
    let rs ← get_ranges (some (.items [.idx i]))
    .ok (rs.foldl (fun acc r => sliceMaxUpdate2 acc r.1 r.2 w) ww)
  | (.pairI lo hi, w) => do
    let rs ← get_ranges (some (.items [.pair lo hi]))
    .ok (rs.foldl (fun acc r => sliceMaxUpdate2 acc r.1 r.2 w) ww)
  | (.pairF lo hi, _) =>
    if 1 ≤ lo ∧ lo ≤ hi then .error .typeError else .error .assertionError

/-- rfkeys entry on a 2-D weight array: elementwise mask by the reference
values, max-wins. -/
def applyRfkeyEntry2 (refd : List (List ℚ)) (ww : List (List ℚ)) (ent : Locator × ℚ) :
    Except PyErr (List (List ℚ)) :=
  match ent with
  | (.int _, _) => .error .typeError
  | (.pairI lo hi, w) =>
    .ok (List.zipWith (fun wr rr => valueMaxUpdate wr rr (lo : ℚ) (hi : ℚ) w) ww refd)
  | (.pairF lo hi, w) =>
    .ok (List.zipWith (fun wr rr => valueMaxUpdate wr rr lo hi w) ww refd)

/-- parse_weights, specialised to the ObjBands call site: `nn` is left at
its default 1, `shape` at None, and `refdata` is the 2-D reference array,
so the structured branch works on a weight array of the reference shape.
An explicit Python list is only passed through when its length is nn = 1;
a numpy array always is (both as 1-D arrays). -/
def parse_weights2 (spec : WeightSpec) (refdata : List (List ℚ)) (i0 : Int)
    (normalised : Bool) (ikeys rikeys rfkeys : List String) : Except PyErr NpData :=
  match spec with
  | .pylist ws =>
    if ws.length = 1 then
      .ok (.one (if normalised then normalise ws else ws))
    else
      .error .attributeError
  | .nparray ws => .ok (.one (if normalised then normalise ws else ws))
  | .struct s => do
    let dflt := (s.dflt).getD 1
    let ww0 := refdata.map (fun r => r.map (fun _ => dflt))
    let ww1 ← ikeys.foldlM (fun ww k =>
      ((s.groups.lookup k).getD []).foldlM (applyIkeyEntry2 i0) ww) ww0
    let ww2 ← rikeys.foldlM (fun ww k =>
      ((s.groups.lookup k).getD []).foldlM applyRikeyEntry2 ww) ww1
    let ww3 ← rfkeys.foldlM (fun ww k =>
      if npShape (.two refdata) = npShape (.two ww) then
        ((s.groups.lookup k).getD []).foldlM (applyRfkeyEntry2 refdata) ww
      else .error .assertionError) ww2
    .ok (.two (if normalised then normalise2 ww3 else ww3))

/-- The attributes of an ObjBands instance that its constructor settles.
`subweight` (no final s) is the attribute created by the misspelled
assignment on line 520.  `align_model = none` stands for both the
attribute holding None and the attribute never having been set (the
except-pass on lines 498-501). -/
structure BandsState where
  ref_data : List (List ℚ)
  subweights : NpData
  subset_ind : Option (List Int)
  align_model : Option AlignPt
  subweight : Option NpData
  normalised : Option Bool
deriving DecidableEq, Repr

/-- ObjBands.__init__ (lines 459-520).  The model spec must be a bare
string (assert).  Four try-blocks read `self.options.get(...)`: each
catches only (TypeError, KeyError), so an absent key is a no-op (the
chain get_subset_ind/get_refval raises TypeError on None), but
`options = None` raises AttributeError at `self.options.get('use_ref')`,
which propagates.  Then `subweights` is parsed against the (possibly
trimmed, possibly shifted) reference data if present in the options;
otherwise line 520 assigns uniform weights to the misspelled attribute
`subweight`. -/
def objBands_init (model_names : ModelNames) (ref0 : List (List ℚ))
    (options : Option BandsOptions) : Except PyErr BandsState := do
  let sw0 : NpData := .two (onesLike2 ref0)
  match model_names with
  | .many _ => .error .assertionError
  | .single _ => do
    let step1 : Except PyErr (List (List ℚ) × NpData) := do
      let rangespec ← optGet options (fun o => o.use_ref)
      let subset ← get_subset_ind rangespec
      let newref ← pyRows ref0 subset
      .ok (newref, .two (onesLike2 newref))
    let s1 ← catchTK step1 (ref0, sw0)
    let ref1 := s1.1
    let sw1 := s1.2
    let step2 : Except PyErr (List (List ℚ)) := do
      let pt ← optGet options (fun o => o.align_ref)
      let shift ← get_refval ref1 pt
      .ok (ref1.map (fun row => row.map (fun x => x - shift)))
    let ref2 ← catchTK step2 ref1
    let step3 : Except PyErr (Option (List Int)) := do
      let rs ← optGet options (fun o => o.use_model)
      let s ← get_subset_ind rs
      .ok (some s)
    let subset_ind ← catchTK step3 none
    let align_model ← catchTK (optGet options (fun o => o.align_model)) none
    match options with
    | some o =>
      match o.subweights with
      | some swspec => do
        let normalised := o.normOpt.getD true
        let sw ← parse_weights2 swspec ref2 0 normalised
          ["indexes", "Ekpts"] ["bands", "iband"] ["values"]
        if npShape sw = npShape (.two ref2) then
          .ok ⟨ref2, sw, subset_ind, align_model, none, some normalised⟩
        else .error .assertionError
      | none => .ok ⟨ref2, sw1, subset_ind, align_model, some (.two (onesLike2 ref2)), none⟩
    | none => .ok ⟨ref2, sw1, subset_ind, align_model, some (.two (onesLike2 ref2)), none⟩

/-- The entries of one integer-range override group, as
(lo, hi, weight) triples mapped into spec entries. -/
def rangesGroup (es : List (Int × Int × ℚ)) : List (Locator × ℚ) :=
  es.map (fun e => (Locator.pairI e.1 e.2.1, e.2.2))

/-- Does the 1-based inclusive range of entry `e` cover 0-based
position `j`? -/
def coversPos (j : Nat) (e : Int × Int × ℚ) : Prop :=
  e.1 - 1 ≤ (j : Int) ∧ (j : Int) < e.2.1

instance (j : Nat) (e : Int × Int × ℚ) : Decidable (coversPos j e) :=
  inferInstanceAs (Decidable (And _ _))

/-- The larger-weight-wins reading of an integer-range override group:
the maximum of the default and of the weights of all entries covering
position `j`. -/
def coveringMax (dflt : ℚ) (es : List (Int × Int × ℚ)) (j : Nat) : ℚ :=
  ((es.filter (fun e => decide (coversPos j e))).map (fun e => e.2.2)).foldl max dflt

theorem updFrom_get? (f : Nat → ℚ → ℚ) (ww : List ℚ) (s j : Nat) :
    (updFrom f s ww).get? j = (ww.get? j).map (fun v => f (s + j) v) := by
  induction ww generalizing s j with
  | nil => simp [updFrom]
  | cons v vs ih =>
    cases j with
    | zero => simp [updFrom]
    | succ j =>
      have harith : s + 1 + j = s + (j + 1) := by omega
      simp only [updFrom, List.get?_cons_succ]
      rw [ih (s + 1) j, harith]

theorem updFrom_length (f : Nat → ℚ → ℚ) (s : Nat) (ww : List ℚ) :
    (updFrom f s ww).length = ww.length := by
  induction ww generalizing s with
  | nil => rfl
  | cons v vs ih => simp [updFrom, ih]

theorem sliceMaxUpdate_get? (ww : List ℚ) (ilo ihi : Int) (w : ℚ) (j : Nat) :
    (sliceMaxUpdate ww ilo ihi w).get? j =
      (ww.get? j).map (fun v => if ilo ≤ (j : Int) ∧ (j : Int) < ihi then max v w else v) := by
  rw [sliceMaxUpdate, updFrom_get?]
  cases hw : ww.get? j with
  | none => rfl
  | some v =>
    simp only [Nat.zero_add, Option.map_some']
    by_cases hc : ilo ≤ (j : Int) ∧ (j : Int) < ihi
    · rw [if_pos hc]
      by_cases hv : v < w
      · rw [if_pos ⟨hc.1, hc.2, hv⟩, max_eq_right hv.le]
      · rw [if_neg (by tauto), max_eq_left (le_of_not_lt hv)]
    · rw [if_neg (by tauto), if_neg hc]

theorem sliceMaxUpdate_length (ww : List ℚ) (ilo ihi : Int) (w : ℚ) :
    (sliceMaxUpdate ww ilo ihi w).length = ww.length := by
  rw [sliceMaxUpdate, updFrom_length]

theorem rangeFold_get? (es : List (Int × Int × ℚ)) (ww : List ℚ) (j : Nat) :
    (es.foldl (fun acc e => sliceMaxUpdate acc (e.1 - 1) e.2.1 e.2.2) ww).get? j =
      (ww.get? j).map (fun v =>
        es.foldl (fun a e => if coversPos j e then max a e.2.2 else a) v) := by
  induction es generalizing ww with
  | nil =>
    simp only [List.foldl_nil]
    cases ww.get? j <;> rfl
  | cons e es ih =>
    simp only [List.foldl_cons]
    rw [ih, sliceMaxUpdate_get?]
    cases hw : ww.get? j with
    | none => rfl
    | some v =>
      simp only [Option.map_some']
      rfl

theorem rangeFold_length (es : List (Int × Int × ℚ)) (ww : List ℚ) :
    (es.foldl (fun acc e => sliceMaxUpdate acc (e.1 - 1) e.2.1 e.2.2) ww).length = ww.length := by
  induction es generalizing ww with
  | nil => rfl
  | cons e es ih => simp only [List.foldl_cons, ih, sliceMaxUpdate_length]

theorem foldl_if_filter (es : List (Int × Int × ℚ)) (j : Nat) (a : ℚ) :
    es.foldl (fun a e => if coversPos j e then max a e.2.2 else a) a =
      ((es.filter (fun e => decide (coversPos j e))).map (fun e => e.2.2)).foldl max a := by
  induction es generalizing a with
  | nil => rfl
  | cons e es ih =>
    by_cases h : coversPos j e
    · simp [List.filter_cons, h, ih]
    · simp [List.filter_cons, h, ih]

theorem foldl_max_perm {l1 l2 : List ℚ} (h : l1.Perm l2) (a : ℚ) :
    l1.foldl max a = l2.foldl max a := by
  induction h generalizing a with
  | nil => rfl
  | cons x _ ih => simp only [List.foldl_cons, ih]
  | swap x y l =>
    simp only [List.foldl_cons]
    rw [max_assoc, max_comm y x, ← max_assoc]
  | trans _ _ ih1 ih2 => rw [ih1, ih2]

theorem coveringMax_perm (dflt : ℚ) {es es' : List (Int × Int × ℚ)} (h : es.Perm es')
    (j : Nat) : coveringMax dflt es j = coveringMax dflt es' j := by
  unfold coveringMax
  exact foldl_max_perm ((h.filter _).map _) dflt

theorem rangesGroup_foldlM (es : List (Int × Int × ℚ)) (ww : List ℚ)
    (hv : ∀ e ∈ es, 1 ≤ e.1 ∧ e.1 ≤ e.2.1) :
    (rangesGroup es).foldlM applyRikeyEntry ww =
      .ok (es.foldl (fun acc e => sliceMaxUpdate acc (e.1 - 1) e.2.1 e.2.2) ww) := by
  induction es generalizing ww with
  | nil => rfl
  | cons e es ih =>
    have he := hv e (List.mem_cons_self e es)
    have hstep : applyRikeyEntry ww (Locator.pairI e.1 e.2.1, e.2.2) =
        .ok (sliceMaxUpdate ww (e.1 - 1) e.2.1 e.2.2) := by
      simp only [applyRikeyEntry, get_ranges, List.mapM, List.mapM.loop, f2prange,
        if_pos he]
      rfl
    simp only [rangesGroup, List.map_cons, List.foldlM_cons, hstep]
    exact ih (sliceMaxUpdate ww (e.1 - 1) e.2.1 e.2.2) (fun x hx => hv x (List.mem_cons_of_mem e hx))

theorem get?_replicate_of_lt (n j : Nat) (a : ℚ) (h : j < n) :
    (List.replicate n a).get? j = some a := by
  simp [List.get?_eq_getElem?, List.getElem?_replicate, h]

theorem parse_weights_ranges_eval (dflt : ℚ) (es : List (Int × Int × ℚ)) (nn : Nat)
    (hv : ∀ e ∈ es, 1 ≤ e.1 ∧ e.1 ≤ e.2.1) :
    parse_weights (.struct ⟨some dflt, [("ranges", rangesGroup es)]⟩)
        none nn none 0 false [] ["ranges"] [] =
      .ok (es.foldl (fun acc e => sliceMaxUpdate acc (e.1 - 1) e.2.1 e.2.2)
        (List.replicate nn dflt)) := by
  have hl : (List.lookup "ranges" [("ranges", rangesGroup es)]).getD [] = rangesGroup es := rfl
  simp only [parse_weights, List.foldlM_nil, List.foldlM_cons, hl, Option.getD_some, pure_bind]
  rw [rangesGroup_foldlM es (List.replicate nn dflt) hv]
  rfl

/-- C1 (amended): in the structured parser, integer-range override groups
combine by larger-weight-wins, but against the default as well: with
normalisation off, the final weight at every position below the array
length is the maximum of the default value and of the weights of all the
listed ranges covering that position — never simply the weight of the
range listed last — and the outcome is invariant under permuting the
listed ranges.  (The original claim, that the weight at a covered
position equals the maximum among the covering ranges alone, fails when
the default exceeds them; see the counterexample.) -/
theorem parse_weights_range_overlap_max (dflt : ℚ) (es : List (Int × Int × ℚ)) (nn : Nat)
    (hv : ∀ e ∈ es, 1 ≤ e.1 ∧ e.1 ≤ e.2.1) :
    ∃ ww, parse_weights (.struct ⟨some dflt, [("ranges", rangesGroup es)]⟩)
        none nn none 0 false [] ["ranges"] [] = .ok ww
      ∧ ww.length = nn
      ∧ (∀ j, j < nn → ww.get? j = some (coveringMax dflt es j))
      ∧ (∀ es', es'.Perm es →
          parse_weights (.struct ⟨some dflt, [("ranges", rangesGroup es')]⟩)
            none nn none 0 false [] ["ranges"] [] = .ok ww) := by
  refine ⟨es.foldl (fun acc e => sliceMaxUpdate acc (e.1 - 1) e.2.1 e.2.2)
    (List.replicate nn dflt), parse_weights_ranges_eval dflt es nn hv, ?_, ?_, ?_⟩
  · rw [rangeFold_length, List.length_replicate]
  · intro j hj
    rw [rangeFold_get?, get?_replicate_of_lt nn j dflt hj]
    simp only [Option.map_some']
    rw [foldl_if_filter]
    rfl
  · intro es' hperm
    have hv' : ∀ e ∈ es', 1 ≤ e.1 ∧ e.1 ≤ e.2.1 := fun e he => hv e (hperm.mem_iff.mp he)
    rw [parse_weights_ranges_eval dflt es' nn hv']
    congr 1
    apply List.ext_get?
    intro j
    by_cases hj : j < nn
    · rw [rangeFold_get?, rangeFold_get?, get?_replicate_of_lt nn j dflt hj]
      simp only [Option.map_some']
      rw [foldl_if_filter, foldl_if_filter]
      exact congrArg some (foldl_max_perm ((hperm.filter _).map _) dflt)
    · have h1 : (es'.foldl (fun acc e => sliceMaxUpdate acc (e.1 - 1) e.2.1 e.2.2)
          (List.replicate nn dflt)).get? j = none := by
        rw [List.get?_eq_none]
        rw [rangeFold_length, List.length_replicate]
        omega
      have h2 : (es.foldl (fun acc e => sliceMaxUpdate acc (e.1 - 1) e.2.1 e.2.2)
          (List.replicate nn dflt)).get? j = none := by
        rw [List.get?_eq_none]
        rw [rangeFold_length, List.length_replicate]
        omega
      rw [h1, h2]

/-- C1 counterexample: the claim as stated says the final weight at a
covered position equals the maximum weight among the covering ranges.
For the spec with default 10 and the single range [[1,2],3] over a
length-2 array (index origin 0, no normalisation), both covered positions
end at 10, not at the covering maximum 3: the default survives because
updates only raise weights. -/
theorem parse_weights_range_default_wins_cex :
    parse_weights (.struct ⟨some 10, [("ranges", rangesGroup [(1, 2, 3)])]⟩)
        none 2 none 0 false [] ["ranges"] [] = .ok [10, 10]
    ∧ ¬ ((10 : ℚ) = 3) := ⟨by decide, by norm_num⟩

/-- Witness for C1 at the concrete spec of the claim: ranges
[[1,3],2],[[3,4],5] over a length-5 default-1 array, index origin 0, no
normalisation; the 0-based overlap position 2 carries the covering
maximum 5, not the weight of the range listed last. -/
theorem parse_weights_range_overlap_max_witness :
    (∃ ww, parse_weights (.struct ⟨some 1, [("ranges", rangesGroup [(1, 3, 2), (3, 4, 5)])]⟩)
        none 5 none 0 false [] ["ranges"] [] = .ok ww
      ∧ ww.length = 5
      ∧ (∀ j, j < 5 → ww.get? j = some (coveringMax 1 [(1, 3, 2), (3, 4, 5)] j))
      ∧ (∀ es', es'.Perm [(1, 3, 2), (3, 4, 5)] →
          parse_weights (.struct ⟨some 1, [("ranges", rangesGroup es')]⟩)
            none 5 none 0 false [] ["ranges"] [] = .ok ww))
    ∧ coveringMax 1 [(1, 3, 2), (3, 4, 5)] 2 = 5 := by
  constructor
  · exact parse_weights_range_overlap_max 1 [(1, 3, 2), (3, 4, 5)] 5 (by decide)
  · decide

/-- C2 (code-bug evidence): an ObjBands construction whose spec has no
options block at all (options = None) fails with AttributeError raised at
self.options.get, because the except clause catches only TypeError and
KeyError — although the claim, and the code comments around lines
465-467 and 518-519, expect absence of options to be a tolerated no-op.
An options dict that is present but lacks every individual key (use_ref,
align_ref, use_model, align_model, subweights) is indeed tolerated: the
construction succeeds, leaves the reference data untouched, keeps the
uniform base sub-weights, and records no model mask or model shift. -/
theorem objBands_options_none_bug (name : String) (ref : List (List ℚ)) :
    objBands_init (.single name) ref none = .error .attributeError
    ∧ objBands_init (.single name) ref (some emptyBandsOptions) =
        .ok ⟨ref, .two (onesLike2 ref), none, none, some (.two (onesLike2 ref)), none⟩ := by
  exact ⟨rfl, rfl⟩

/-- C3 (code-bug evidence): ObjValues with two models and reference data
of shape (1, 2) reshapes the reference to (2,), as claimed; but with no
options the uniform weights go to the misspelled attribute `subweight`
(source line 370), so the `subweights` attribute keeps the base
constructor value of the pre-reshape shape (1, 2), and its shape differs
from the reshaped reference shape — the claimed equality of shapes (and
hence the evaluation-time shape invariant) fails. -/
theorem objValues_subweights_shape_bug :
    objValues_init ["m1", "m2"] (.two [[1, 2]]) none =
      .ok ⟨.one [1, 2], .two [[1, 1]], some (.one [1, 1]), none⟩
    ∧ npShape (NpData.two [[1, 1]]) ≠ npShape (NpData.one [1, 2]) := by
  exact ⟨by decide, by decide⟩

/-- C10: ObjKeyValuePairs makes the options.subweights block mandatory,
unlike the other variants: with options absent (None) construction
raises AttributeError at self.options.get('normalise', True), and with
an options dict lacking a subweights entry it raises KeyError at
self.options['subweights']. -/
theorem objKeyValuePairs_options_mandatory (ref : List (String × ℚ)) (b : Option Bool) :
    objKeyValuePairs_init ref none = .error .attributeError
    ∧ objKeyValuePairs_init ref (some ⟨none, b⟩) = .error .keyError := by
  exact ⟨rfl, rfl⟩

/-- C9: f2prange fails (InvalidRangeError, raised as an assertion) for
every pair with lo < 1 or hi < lo, and for every pair with lo ≥ 1 and
hi ≥ lo returns the 0-based half-open pair (lo-1, hi); reading that
result back as a 1-based inclusive pair (low+1, high) recovers exactly
(lo, hi). -/
theorem f2prange_round_trip (lo hi : Int) :
    ((lo < 1 ∨ hi < lo) → f2prange lo hi = .error .assertionError)
    ∧ (1 ≤ lo → lo ≤ hi →
        f2prange lo hi = .ok (lo - 1, hi) ∧ (lo - 1 + 1, hi) = (lo, hi)) := by
  constructor
  · intro h
    rw [f2prange, if_neg (by omega)]
  · intro h1 h2
    refine ⟨by rw [f2prange, if_pos ⟨h1, h2⟩], ?_⟩
    rw [Prod.mk.injEq]
    omega

/-- Witness for C9 at the valid range (2, 5) and the invalid range
(0, 5). -/
theorem f2prange_round_trip_witness :
    f2prange 0 5 = .error .assertionError
    ∧ (f2prange 2 5 = .ok (2 - 1, 5) ∧ ((2 : Int) - 1 + 1, (5 : Int)) = (2, 5)) := by
  exact ⟨(f2prange_round_trip 0 5).1 (Or.inl (by norm_num)),
    (f2prange_round_trip 2 5).2 (by norm_num) (by norm_num)⟩

/-- C4 (amended): in the structured branch, parse_weights fails whenever
the value-range key list (rfkeys) is non-empty and refdata is
unsupplied, even when the spec contains no value-range override group —
the per-key check `assert refdata.shape == ww.shape` evaluates
refdata.shape before the group is even looked up, raising AttributeError
on None (not the ShapeMismatchError assertion itself).  Supplying
refdata of matching shape makes a call with no value-range group
succeed, as does leaving the value-range key list empty with refdata
unsupplied.  (The original claim that such a call succeeds with refdata
unsupplied fails; see the counterexample.) -/
theorem parse_weights_refdata_required (d : Option ℚ)
    (g : List (String × List (Locator × ℚ))) (nn : Nat) (sh : Option Nat) (i0 : Int)
    (b : Bool) (k : String) (rest : List String) (r : List ℚ) :
    parse_weights (.struct ⟨d, g⟩) none nn sh i0 b [] [] (k :: rest) = .error .attributeError
    ∧ (List.lookup k g = none →
        parse_weights (.struct ⟨d, g⟩) (some r) nn none i0 false [] [] [k] =
          .ok (List.replicate r.length (d.getD 1)))
    ∧ parse_weights (.struct ⟨d, g⟩) none nn none i0 false [] [] [] =
        .ok (List.replicate nn (d.getD 1)) := by
  refine ⟨?_, ?_, ?_⟩
  · simp only [parse_weights, List.foldlM_nil, List.foldlM_cons, pure_bind]
    rfl
  · intro hk
    simp only [parse_weights, List.foldlM_nil, List.foldlM_cons, pure_bind,
      List.length_replicate, if_pos rfl, hk, Option.getD_none]
    rfl
  · simp only [parse_weights, List.foldlM_nil, pure_bind]
    rfl

/-- C4 counterexample: a structured spec with no value-range override
group, refdata unsupplied, and a non-empty value-range key list fails
(with AttributeError), where the claim says the call succeeds without
error. -/
theorem parse_weights_refdata_missing_cex :
    parse_weights (.struct ⟨none, []⟩) none 3 none 0 false [] [] ["values"] =
      .error .attributeError := by decide

/-- Witness for C4: with refdata supplied, a spec with no value-range
group parses to the all-default array under the same key list. -/
theorem parse_weights_refdata_required_witness :
    parse_weights (.struct ⟨some 2, []⟩) (some [5, 6]) 1 none 0 false [] [] ["values"] =
      .ok (List.replicate ([5, 6] : List ℚ).length ((some (2 : ℚ)).getD 1)) := by
  exact (parse_weights_refdata_required (some 2) [] 1 none 0 false "values" [] [5, 6]).2.1 rfl

/-- C6: get_type infers values by default; weighted_sum when more than
one model meets a shape-(1,) reference; keyval_pairs when a single model
meets a 1-D structured key-value reference; bands when a single model
meets a 2-D float reference; and an explicitly stated type always
overrides the inference. -/
theorem get_type_classification (m : Nat) (ref : NpData) (t : String) :
    (¬ (1 < m ∧ npShape ref = [1]) →
      ¬ (m = 1 ∧ npNdim ref = 1 ∧ npDtype ref = .keyval) →
      ¬ (m = 1 ∧ npNdim ref = 2 ∧ npDtype ref = .float) →
      get_type m ref "values" = "values")
    ∧ (1 < m → npShape ref = [1] → get_type m ref "values" = "weighted_sum")
    ∧ (m = 1 → npNdim ref = 1 → npDtype ref = .keyval → get_type m ref "values" = "keyval_pairs")
    ∧ (m = 1 → npNdim ref = 2 → npDtype ref = .float → get_type m ref "values" = "bands")
    ∧ resolve_objtype (some t) m ref = t := by
  refine ⟨?_, ?_, ?_, ?_, rfl⟩
  · intro h1 h2 h3
    simp only [get_type]
    rw [if_neg h3, if_neg h2, if_neg h1]
  · intro hm hs
    simp only [get_type]
    rw [if_neg (by rintro ⟨h, -⟩; omega), if_neg (by rintro ⟨h, -⟩; omega), if_pos ⟨hm, hs⟩]
  · intro hm hn hd
    simp only [get_type]
    rw [if_neg (by rintro ⟨-, h, -⟩; omega), if_pos ⟨hm, hn, hd⟩]
  · intro hm hn hd
    simp only [get_type]
    rw [if_pos ⟨hm, hn, hd⟩]

/-- Witness for C6 at the instances named by the spec: a single model
with a 2-D float reference of shape (4, 6) infers bands; two models with
a shape-(1,) reference infer weighted_sum; a single model with a
key-value table infers keyval_pairs; a single model with a plain 1-D
float reference keeps the default values; an explicit type wins. -/
theorem get_type_classification_witness :
    get_type 1 (.two [[0, 0, 0, 0, 0, 0], [0, 0, 0, 0, 0, 0], [0, 0, 0, 0, 0, 0],
      [0, 0, 0, 0, 0, 0]]) "values" = "bands"
    ∧ get_type 2 (.one [7]) "values" = "weighted_sum"
    ∧ get_type 1 (.kv [("a", 1)]) "values" = "keyval_pairs"
    ∧ get_type 1 (.one [1, 2]) "values" = "values"
    ∧ resolve_objtype (some "bands") 2 (.one [7]) = "bands" := by
  refine ⟨?_, ?_, ?_, ?_, ?_⟩
  · exact (get_type_classification 1 (.two [[0, 0, 0, 0, 0, 0], [0, 0, 0, 0, 0, 0],
      [0, 0, 0, 0, 0, 0], [0, 0, 0, 0, 0, 0]]) "x").2.2.2.1 rfl rfl rfl
  · exact (get_type_classification 2 (.one [7]) "x").2.1 (by norm_num) rfl
  · exact (get_type_classification 1 (.kv [("a", 1)]) "x").2.2.1 rfl rfl rfl
  · exact (get_type_classification 1 (.one [1, 2]) "x").1 (by simp [npShape])
      (by simp [npDtype]) (by simp [npNdim])
  · exact (get_type_classification 2 (.one [7]) "bands").2.2.2.2

/-- C7: ObjWeightedSum.get fails with the ShapeMismatchError assertion
when the number of fetched per-model summands differs from the number of
model weights; otherwise the model data is the dot product of summands
and model weights coerced to a 1-element (at-least-1-D) array, which the
base get() hands back once reference data and sub-weights share that
shape. -/
theorem objWeightedSum_get_spec (s mw rd sw : List ℚ) :
    (s.length ≠ mw.length → objWeightedSum_get s mw rd sw = .error .assertionError)
    ∧ (s.length = mw.length → rd.length = 1 → sw.length = 1 →
        objWeightedSum_get s mw rd sw = .ok ([dotQ s mw], rd, sw)) := by
  constructor
  · intro h
    rw [objWeightedSum_get, if_neg h]
  · intro h h1 h2
    rw [objWeightedSum_get, if_pos h, objective_get_base]
    rw [if_pos (by simpa using h1.symm), if_pos (by simpa using h2.symm)]

/-- Witness for C7: summands [1,2] against model weights [3,4] give the
dot product 11 as a 1-element array; a third summand against two weights
trips the assertion. -/
theorem objWeightedSum_get_spec_witness :
    objWeightedSum_get [1, 2] [3, 4] [11] [1] = .ok ([dotQ [1, 2] [3, 4]], [11], [1])
    ∧ dotQ [1, 2] [3, 4] = 11
    ∧ objWeightedSum_get [1, 2, 5] [3, 4] [11] [1] = .error .assertionError := by
  refine ⟨(objWeightedSum_get_spec [1, 2] [3, 4] [11] [1]).2 rfl rfl rfl, ?_,
    (objWeightedSum_get_spec [1, 2, 5] [3, 4] [11] [1]).1 (by norm_num)⟩
  norm_num [dotQ]

/-- C8: when the cost-function or error-function name in the options is
not a key of its registry (after lowercasing), construction succeeds and
the functions stay at the defaults — the rms cost and the abs error —
exactly as when no options block is given; a recognized name is looked
up by its lowercased form. -/
theorem objective_funcs_default_on_unknown (ck ek : List String) (n1 n2 : String) :
    "rms" ∈ ck → "abs" ∈ ek →
    (objective_init_funcs ck ek none = .ok ("rms", "abs")
    ∧ (¬ pyLower n1 ∈ ck → ¬ pyLower n2 ∈ ek →
        objective_init_funcs ck ek (some ⟨some n1, some n2⟩) = .ok ("rms", "abs"))
    ∧ (pyLower n1 ∈ ck → pyLower n2 ∈ ek →
        objective_init_funcs ck ek (some ⟨some n1, some n2⟩) =
          .ok (pyLower n1, pyLower n2))) := by
  intro h1 h2
  refine ⟨?_, ?_, ?_⟩
  · simp only [objective_init_funcs, dict_lookup, if_pos h1, if_pos h2]
    rfl
  · intro hn1 hn2
    simp only [objective_init_funcs, dict_lookup, if_pos h1, if_pos h2, if_neg hn1, if_neg hn2]
    rfl
  · intro hn1 hn2
    simp only [objective_init_funcs, dict_lookup, if_pos h1, if_pos h2, if_pos hn1, if_pos hn2]
    rfl

/-- Witness for C8: in registries with keys {rms, other} and {abs}, the
unknown names Bogus/Chebyshev keep the defaults exactly as absent
options do, while RMS resolves through lowercasing. -/
theorem objective_funcs_default_on_unknown_witness :
    (objective_init_funcs ["rms", "other"] ["abs"] none = .ok ("rms", "abs")
    ∧ (¬ pyLower "Bogus" ∈ ["rms", "other"] → ¬ pyLower "Chebyshev" ∈ ["abs"] →
        objective_init_funcs ["rms", "other"] ["abs"]
          (some ⟨some "Bogus", some "Chebyshev"⟩) = .ok ("rms", "abs"))
    ∧ (pyLower "RMS" ∈ ["rms", "other"] → pyLower "ABS" ∈ ["abs"] →
        objective_init_funcs ["rms", "other"] ["abs"]
          (some ⟨some "RMS", some "ABS"⟩) =
          .ok (pyLower "RMS", pyLower "ABS")))
    ∧ objective_init_funcs ["rms", "other"] ["abs"]
        (some ⟨some "Bogus", some "Chebyshev"⟩) = .ok ("rms", "abs") := by
  refine ⟨⟨(objective_funcs_default_on_unknown ["rms", "other"] ["abs"] "Bogus" "Chebyshev"
      (by decide) (by decide)).1,
    fun a b => (objective_funcs_default_on_unknown ["rms", "other"] ["abs"] "Bogus" "Chebyshev"
      (by decide) (by decide)).2.1 a b,
    fun a b => (objective_funcs_default_on_unknown ["rms", "other"] ["abs"] "RMS" "ABS"
      (by decide) (by decide)).2.2 a b⟩, ?_⟩
  exact (objective_funcs_default_on_unknown ["rms", "other"] ["abs"] "Bogus" "Chebyshev"
    (by decide) (by decide)).2.1 (by decide) (by decide)

theorem except_ok_bind (a : α) (f : α → Except PyErr β) :
    (Except.ok a >>= f) = f a := rfl

theorem except_error_bind (e : PyErr) (f : α → Except PyErr β) :
    (Except.error e >>= f) = Except.error e := rfl

/-- C5: whenever ObjKeyValuePairs construction succeeds, the parsed flat
weights determine the retained rows exactly: query_key lists (in original
table order) the keys whose weight is non-zero, ref_data their float
values, and subweights their weights — all and only the non-zero ones.
In the concrete instance of reference x:1, y:2, z:3 with the flat spec
of default 1 and y:0 (normalisation at its default), the result keeps x
and z: ref_data has length 2 and excludes the value of y. -/
theorem objKeyValuePairs_drops_zero (ref : List (String × ℚ)) (opts : KVOptions)
    (st : KVState) :
    (objKeyValuePairs_init ref (some opts) = .ok st →
      ∃ swspec ww, opts.subweights = some swspec
        ∧ parse_weights_keyval swspec ref (opts.normOpt.getD true) = .ok ww
        ∧ st.query_key =
            ((List.zip ref ww).filter (fun p => decide (p.2 ≠ 0))).map (fun p => p.1.1)
        ∧ st.ref_data =
            ((List.zip ref ww).filter (fun p => decide (p.2 ≠ 0))).map (fun p => p.1.2)
        ∧ st.subweights =
            ((List.zip ref ww).filter (fun p => decide (p.2 ≠ 0))).map (fun p => p.2)
        ∧ ∀ w ∈ st.subweights, ¬ w = 0)
    ∧ objKeyValuePairs_init [("x", 1), ("y", 2), ("z", 3)]
        (some ⟨some (.mapping [("dflt", 1), ("y", 0)]), none⟩) =
      .ok ⟨["x", "z"], [1, 3], [1 / 2, 1 / 2]⟩ := by
  constructor
  · intro h
    obtain ⟨osw, ob⟩ := opts
    cases osw with
    | none => exact absurd h (by simp [objKeyValuePairs_init])
    | some swspec =>
      simp only [objKeyValuePairs_init] at h
      cases hpw : parse_weights_keyval swspec ref (ob.getD true) with
      | error e =>
        rw [hpw, except_error_bind] at h
        exact absurd h (by simp)
      | ok ww =>
        rw [hpw, except_ok_bind] at h
        rw [if_pos (by simp)] at h
        injection h with h
        subst h
        refine ⟨swspec, ww, rfl, hpw, rfl, rfl, rfl, ?_⟩
        intro w hw
        simp only [List.mem_map, List.mem_filter, decide_eq_true_eq] at hw
        obtain ⟨p, ⟨-, hp⟩, hpe⟩ := hw
        exact hpe ▸ hp
  · have hpw : parse_weights_keyval (KVSpec.mapping [("dflt", 1), ("y", 0)])
        [("x", 1), ("y", 2), ("z", 3)] true = .ok [1 / 2, 0, 1 / 2] := by
      simp +decide only [parse_weights_keyval, List.lookup, List.foldl, List.zipWith,
        List.map, Option.getD_some]
      norm_num [normalise]
    simp only [objKeyValuePairs_init, Option.getD_none, hpw, except_ok_bind]
    rw [if_pos (by simp)]
    norm_num [List.zip, List.zipWith, List.filter_cons, List.filter_nil]

/-- Witness for C5: the drop-zero characterisation applied at the
concrete reference x:1, y:2, z:3 with the flat spec of default 1 and
y:0, discharging the construction-success hypothesis by the concrete
evaluation. -/
theorem objKeyValuePairs_drops_zero_witness :
    ∃ swspec ww,
      (KVOptions.mk (some (KVSpec.mapping [("dflt", 1), ("y", 0)])) none).subweights =
        some swspec
      ∧ parse_weights_keyval swspec [("x", 1), ("y", 2), ("z", 3)]
          ((KVOptions.mk (some (KVSpec.mapping [("dflt", 1), ("y", 0)]))
            none).normOpt.getD true) = .ok ww
      ∧ (KVState.mk ["x", "z"] [1, 3] [1 / 2, 1 / 2]).query_key =
          ((List.zip [("x", (1 : ℚ)), ("y", 2), ("z", 3)] ww).filter
            (fun p => decide (p.2 ≠ 0))).map (fun p => p.1.1)
      ∧ (KVState.mk ["x", "z"] [1, 3] [1 / 2, 1 / 2]).ref_data =
          ((List.zip [("x", (1 : ℚ)), ("y", 2), ("z", 3)] ww).filter
            (fun p => decide (p.2 ≠ 0))).map (fun p => p.1.2)
      ∧ (KVState.mk ["x", "z"] [1, 3] [1 / 2, 1 / 2]).subweights =
          ((List.zip [("x", (1 : ℚ)), ("y", 2), ("z", 3)] ww).filter
            (fun p => decide (p.2 ≠ 0))).map (fun p => p.2)
      ∧ ∀ w ∈ (KVState.mk ["x", "z"] [1, 3] [1 / 2, 1 / 2]).subweights, ¬ w = 0 := by
  have h := objKeyValuePairs_drops_zero [("x", 1), ("y", 2), ("z", 3)]
    ⟨some (.mapping [("dflt", 1), ("y", 0)]), none⟩ ⟨["x", "z"], [1, 3], [1 / 2, 1 / 2]⟩
  exact h.1 h.2
